import Mathlib

/-!
Shallow embedding of the `ruice` dependency-injection library
(crates `ruice` and `ruice-axum`).

Modelling conventions:

* A Rust `TypeId` (the capability identity, `type ServiceId = TypeId` in
  `src/core/src/lib.rs`) is modelled as a `Nat`.
* A Rust `Arc<S>` is modelled as a pair `(id, payload)` where `id : Nat` is the
  allocation identity of the `Arc` and `payload : Val` its pointee.  `Arc::clone`
  preserves the identity, `Arc::new` draws a fresh identity from an allocation
  counter that is threaded through resolution (`σ : Nat`, the next fresh id).
* The payload universe `Val` covers plain service values (`base`, `str`) and the
  `Tagged<Tag>` container of `src/core/src/tagged.rs`, whose field
  `services : Vec<Arc<Tag>>` becomes a list of arcs.
* `ServiceContainer` (`src/core/src/lib.rs` line 146) holds a single
  `HashMap<ServiceId, Arc<dyn Any + Send + Sync>>`; the map is modelled as an
  association list with insert-replacing-existing-key semantics, and the
  type-erased `Arc<dyn Any>` entry is an `Entry`: either a sync `Resolver<S>` or
  an `AsyncResolver<S>`.  The `downcast_ref::<Resolver<S>>` /
  `downcast_ref::<AsyncResolver<S>>` calls in `get` / `get_async` succeed
  exactly when the entry is of the corresponding kind (a `TypeId` collision
  between distinct `S` is impossible, per the key derivation).
* A resolution strategy may query the container recursively (`Resolve::resolve`
  receives `&ServiceContainer`).  To keep definitions well-founded, strategy
  functions receive the container's lookup function (`Lookup`), and `get` is
  defined with a fuel parameter that bounds the recursion depth; the real code
  recurses unboundedly, so theorems quantify over sufficient fuel.
* Async execution is erased: an `async fn` returning `Option<Arc<S>>` is a
  function returning `Option Arc` (suspension points are not observable in the
  properties considered here).
-/

namespace Ruice

/-- Capability identity: `type ServiceId = TypeId` in `src/core/src/lib.rs`. -/
abbrev ServiceId := Nat

/-- Payload universe for service instances.  `tagged` is the
`Tagged<Tag> { services: Vec<Arc<Tag>> }` container of `src/core/src/tagged.rs`,
its members being arcs `(id, payload)`. -/
inductive Val where
  | base (n : Nat)
  | str (s : String)
  | tagged (arcs : List (Nat × Val))

/-- A Rust `Arc<S>`: allocation identity together with the pointee. -/
abbrev Arc := Nat × Val

/-- `Arc::new`: wrap a value in a freshly allocated arc, advancing the
allocation counter. -/
def alloc (v : Val) (σ : Nat) : Arc × Nat := ((σ, v), σ + 1)

/-- The container's synchronous lookup interface handed to strategy bodies
(in Rust a strategy receives `&ServiceContainer` and calls `get`). -/
abbrev Lookup := ServiceId → Nat → Option Arc × Nat

/-- Synchronous resolution strategies (`Resolve<S>` implementors):
`Singleton<S>` (`src/core/src/singleton.rs`), `Bound<Interface>` and
`BindBy<Interface>` (`src/core/src/bind.rs`), and `Constructor<S>`
(`src/core/src/construct.rs`).  `bindBy` carries the wrapped closure
`Fn(&C) -> Option<Arc<Interface>>`; `constructor` carries the capability's
`Construct::construct : &C -> Option<S>` operation (returning a bare value,
which `resolve` wraps via `Arc::new`). -/
inductive SyncStrategy where
  | singleton (service : Arc)
  | bound (service : Arc)
  | bindBy (f : Lookup → Nat → Option Arc × Nat)
  | constructor (construct : Lookup → Nat → Option Val × Nat)

/-- Asynchronous resolution strategies wrapped in an `AsyncResolver<S>`:
`AsyncBindBy<Interface>` (`src/core/src/bind.rs`) and `AsyncConstructor<S>`
(`src/core/src/construct.rs`). -/
inductive AsyncStrategy where
  | asyncBindBy (f : Lookup → Nat → Option Arc × Nat)
  | asyncConstructor (construct : Lookup → Nat → Option Val × Nat)

/-- The type-erased `Arc<dyn Any + Send + Sync>` value stored in the
container's map: either a `Resolver<S>` (stored by `put`) or an
`AsyncResolver<S>` (stored by `put_async`).  A single map slot holds exactly
one of the two. -/
inductive Entry where
  | sync (r : SyncStrategy)
  | async (r : AsyncStrategy)

/-- `HashMap::get` on the association-list model. -/
def lookupEntry : List (ServiceId × Entry) → ServiceId → Option Entry
  | [], _ => none
  | (k', e') :: t, k => if k' = k then some e' else lookupEntry t k

/-- `HashMap::insert` on the association-list model: replaces the value of an
existing key, otherwise appends. -/
def insertEntry : List (ServiceId × Entry) → ServiceId → Entry → List (ServiceId × Entry)
  | [], k, e => [(k, e)]
  | (k', e') :: t, k, e => if k' = k then (k, e) :: t else (k', e') :: insertEntry t k e

/-- `ServiceContainer` (`src/core/src/lib.rs` line 146): a single map from
capability identity to one type-erased entry. -/
structure ServiceContainer where
  services : List (ServiceId × Entry)

/-- `Resolve::resolve` dispatched over the strategy kinds.
`Singleton`/`Bound` return `Some(Arc::clone(&self.service))`;
`BindBy` runs the wrapped closure; `Constructor` runs
`S::construct(container)` and wraps a success in `Arc::new`. -/
def resolveSync : SyncStrategy → Lookup → Nat → Option Arc × Nat
  | SyncStrategy.singleton a, _, σ => (some a, σ)
  | SyncStrategy.bound a, _, σ => (some a, σ)
  | SyncStrategy.bindBy f, lk, σ => f lk σ
  | SyncStrategy.constructor g, lk, σ =>
    match g lk σ with
    | (some v, σ') => (some (alloc v σ').fst, (alloc v σ').snd)
    | (none, σ') => (none, σ')

/-- `AsyncResolve::async_resolve` dispatched over the async strategy kinds. -/
def resolveAsync : AsyncStrategy → Lookup → Nat → Option Arc × Nat
  | AsyncStrategy.asyncBindBy f, lk, σ => f lk σ
  | AsyncStrategy.asyncConstructor g, lk, σ =>
    match g lk σ with
    | (some v, σ') => (some (alloc v σ').fst, (alloc v σ').snd)
    | (none, σ') => (none, σ')

/-- `Services::get` for `ServiceContainer` (`src/core/src/lib.rs` lines
159-168): look up the entry for the capability, downcast it to a sync
`Resolver<S>` (which fails when the slot holds an `AsyncResolver<S>`), and run
it.  `fuel` bounds the recursion available to strategy bodies. -/
def ServiceContainer.getFuel : Nat → ServiceContainer → ServiceId → Nat → Option Arc × Nat
  | 0, _, _, σ => (none, σ)
  | fuel + 1, c, sid, σ =>
    match lookupEntry c.services sid with
    | some (Entry.sync r) => resolveSync r (fun k τ => ServiceContainer.getFuel fuel c k τ) σ
    | _ => (none, σ)

/-- `AsyncServices::get_async` for `ServiceContainer` (`src/core/src/lib.rs`
lines 182-200): downcast the entry to an `AsyncResolver<S>` and run it; if the
downcast fails or the async strategy returns `None`, fall back to `self.get()`. -/
def ServiceContainer.getAsyncFuel (fuel : Nat) (c : ServiceContainer) (sid : ServiceId)
    (σ : Nat) : Option Arc × Nat :=
  match
    (match lookupEntry c.services sid with
     | some (Entry.async r) => resolveAsync r (fun k τ => ServiceContainer.getFuel fuel c k τ) σ
     | _ => ((none : Option Arc), σ)) with
  | (some s, σ') => (some s, σ')
  | (none, σ') => ServiceContainer.getFuel fuel c sid σ'

/-- `Services::has` (`src/core/src/lib.rs` lines 152-157):
`contains_key` on the single map. -/
def ServiceContainer.has (c : ServiceContainer) (sid : ServiceId) : Bool :=
  (lookupEntry c.services sid).isSome

/-- `Services::put` (`src/core/src/lib.rs` lines 170-177): wrap the strategy in
a `Resolver<S>` and insert it under the capability's identity. -/
def ServiceContainer.put (c : ServiceContainer) (sid : ServiceId) (r : SyncStrategy) :
    ServiceContainer :=
  ⟨insertEntry c.services sid (Entry.sync r)⟩

/-- `AsyncServices::put_async` (`src/core/src/lib.rs` lines 202-207): insert
the `AsyncResolver<S>` under the capability's identity — into the same map used
by `put`. -/
def ServiceContainer.putAsync (c : ServiceContainer) (sid : ServiceId) (r : AsyncStrategy) :
    ServiceContainer :=
  ⟨insertEntry c.services sid (Entry.async r)⟩

/-- `Services::replace` (`src/core/src/lib.rs` lines 121-128):
`self.put(Singleton::new(f(self.get::<S>().as_deref())))` — read the current
instance, apply the mutation to its (optional) payload, allocate the result in
a fresh arc (`Singleton::new` calls `Arc::new`) and register it as a singleton
strategy. -/
def ServiceContainer.replace (fuel : Nat) (c : ServiceContainer) (sid : ServiceId)
    (f : Option Val → Val) (σ : Nat) : ServiceContainer × Nat :=
  let cur := ServiceContainer.getFuel fuel c sid σ
  let p := alloc (f (cur.fst.map Prod.snd)) cur.snd
  (c.put sid (SyncStrategy.singleton p.fst), p.snd)

/-- `#[derive(Clone)]` on `ServiceContainer`: `HashMap::clone` copies the
key-to-entry table, sharing each `Arc`-held strategy object by reference; the
duplicate has the same entries in an independent map. -/
def ServiceContainer.clone (c : ServiceContainer) : ServiceContainer :=
  ⟨c.services⟩

/-- The member arcs of a `Tagged` payload: `Tagged::clone` copies the vector
(`services.to_vec()`), preserving each member arc's identity;
`unwrap_or_default` on a missing or non-tagged payload gives the empty vector. -/
def taggedArcs : Option Val → List Arc
  | some (Val.tagged l) => l
  | _ => []

/-- `TaggedServices::put_tagged` (`src/core/src/tagged.rs` lines 46-55):
`replace` with the mutation "clone the current collection (or default), push
the new member". -/
def ServiceContainer.putTagged (fuel : Nat) (c : ServiceContainer) (tagSid : ServiceId)
    (service : Arc) (σ : Nat) : ServiceContainer × Nat :=
  ServiceContainer.replace fuel c tagSid (fun cur => Val.tagged (taggedArcs cur ++ [service])) σ

/-- `TaggedServices::get_tagged` (`src/core/src/tagged.rs` lines 37-44):
`get::<Tagged<Tag>>()`, clone each member arc, `unwrap_or_default` on absence. -/
def ServiceContainer.getTagged (fuel : Nat) (c : ServiceContainer) (tagSid : ServiceId)
    (σ : Nat) : List Arc × Nat :=
  match ServiceContainer.getFuel fuel c tagSid σ with
  | (some a, σ') => (taggedArcs (some a.snd), σ')
  | (none, σ') => ([], σ')

/-- The adapter's error type (`src/axum/src/lib.rs` lines 15-22):
`ServiceContainerNotAvailable` wraps the extension rejection (modelled by its
message), `ServiceNotFound` is the absent-service case. -/
inductive AdapterError where
  | serviceContainerNotAvailable (rejection : String)
  | serviceNotFound

/-- `Inject::from_request_parts` (`src/axum/src/lib.rs` lines 59-67): extract
the `Extension<Arc<ServiceContainer>>` from the request parts (its rejection is
modelled as the `Except.error` case of the context), then `get_async` for the
requested capability, mapping absence to `ServiceNotFound`. -/
def fromRequestParts (fuel : Nat) (ctx : Except String ServiceContainer) (sid : ServiceId)
    (σ : Nat) : Except AdapterError Arc :=
  match ctx with
  | Except.error m => Except.error (AdapterError.serviceContainerNotAvailable m)
  | Except.ok c =>
    match ServiceContainer.getAsyncFuel fuel c sid σ with
    | (some a, _) => Except.ok a
    | (none, _) => Except.error AdapterError.serviceNotFound

/-- `IntoResponse for Error` (`src/axum/src/lib.rs` lines 24-28): both failure
kinds become a terminal `(StatusCode::INTERNAL_SERVER_ERROR, message)`
response. -/
def intoResponse : AdapterError → Nat × String
  | AdapterError.serviceContainerNotAvailable m =>
    (500, "Service container is not available in this context: " ++ m)
  | AdapterError.serviceNotFound =>
    (500, "Could not find the service in the container, or could not resolve the service.")

/-! Helper lemmas about the map model and the lookup functions. -/

/-- Inserting twice under the same key is the same as inserting the second
value once (`HashMap::insert` replaces the existing value). -/
theorem insertEntry_insertEntry (l : List (ServiceId × Entry)) (k : ServiceId) (e1 e2 : Entry) :
    insertEntry (insertEntry l k e1) k e2 = insertEntry l k e2 := by
  induction l with
  | nil => simp [insertEntry]
  | cons h t ih =>
    by_cases hk : h.fst = k
    · simp [insertEntry, hk]
    · simp [insertEntry, hk, ih]

/-- After an insert, looking up the inserted key returns the inserted entry. -/
theorem lookupEntry_insertEntry_self (l : List (ServiceId × Entry)) (k : ServiceId) (e : Entry) :
    lookupEntry (insertEntry l k e) k = some e := by
  induction l with
  | nil => simp [insertEntry, lookupEntry]
  | cons h t ih =>
    by_cases hk : h.fst = k
    · simp [insertEntry, hk, lookupEntry]
    · simp [insertEntry, hk, lookupEntry, ih]

/-- `get` on a capability with no entry returns `None` and allocates nothing. -/
theorem getFuel_entry_none {c : ServiceContainer} {sid : ServiceId}
    (h : lookupEntry c.services sid = none) (fuel σ : Nat) :
    ServiceContainer.getFuel fuel c sid σ = (none, σ) := by
  cases fuel with
  | zero => rfl
  | succ n => simp [ServiceContainer.getFuel, h]

/-- `get` on a capability whose slot holds an `AsyncResolver` returns `None`
without running the async strategy (the `downcast_ref::<Resolver<S>>` fails),
and allocates nothing. -/
theorem getFuel_entry_async {c : ServiceContainer} {sid : ServiceId} {a : AsyncStrategy}
    (h : lookupEntry c.services sid = some (Entry.async a)) (fuel σ : Nat) :
    ServiceContainer.getFuel fuel c sid σ = (none, σ) := by
  cases fuel with
  | zero => rfl
  | succ n => simp [ServiceContainer.getFuel, h]

/-- `get` on a capability whose slot holds a sync `Resolver` runs that
strategy. -/
theorem getFuel_entry_sync {c : ServiceContainer} {sid : ServiceId} {r : SyncStrategy}
    (h : lookupEntry c.services sid = some (Entry.sync r)) (fuel σ : Nat) :
    ServiceContainer.getFuel (fuel + 1) c sid σ
      = resolveSync r (fun k τ => ServiceContainer.getFuel fuel c k τ) σ := by
  simp [ServiceContainer.getFuel, h]

/-- `get_async` on a capability whose slot holds a sync `Resolver` is exactly
the fallback `self.get()` (the async downcast fails). -/
theorem getAsyncFuel_entry_sync {c : ServiceContainer} {sid : ServiceId} {r : SyncStrategy}
    (h : lookupEntry c.services sid = some (Entry.sync r)) (fuel σ : Nat) :
    ServiceContainer.getAsyncFuel fuel c sid σ = ServiceContainer.getFuel fuel c sid σ := by
  simp [ServiceContainer.getAsyncFuel, h]

/-- `get_async` on a capability with no entry is exactly the fallback
`self.get()`. -/
theorem getAsyncFuel_entry_none {c : ServiceContainer} {sid : ServiceId}
    (h : lookupEntry c.services sid = none) (fuel σ : Nat) :
    ServiceContainer.getAsyncFuel fuel c sid σ = ServiceContainer.getFuel fuel c sid σ := by
  simp [ServiceContainer.getAsyncFuel, h]

/-- `get_async` on a capability whose slot holds an `AsyncResolver` runs the
async strategy and falls back to `self.get()` on absence. -/
theorem getAsyncFuel_entry_async {c : ServiceContainer} {sid : ServiceId} {a : AsyncStrategy}
    (h : lookupEntry c.services sid = some (Entry.async a)) (fuel σ : Nat) :
    ServiceContainer.getAsyncFuel fuel c sid σ
      = (match resolveAsync a (fun k τ => ServiceContainer.getFuel fuel c k τ) σ with
         | (some s, σ') => (some s, σ')
         | (none, σ') => ServiceContainer.getFuel fuel c sid σ') := by
  simp only [ServiceContainer.getAsyncFuel, h]

/-! Claim theorems. -/

/-- Claim C4: for every capability bound via a fixed instance (`Singleton` or
`Bound`), every `get` call succeeds and returns the identical shared arc (same
allocation identity), with the allocation counter unchanged (the instance is
never re-built), for every amount of fuel and every container state carrying
that binding. -/
theorem fixed_instance_aliasing (c : ServiceContainer) (sid : ServiceId) (a : Arc)
    (fuel σ : Nat)
    (h : lookupEntry c.services sid = some (Entry.sync (SyncStrategy.singleton a)) ∨
         lookupEntry c.services sid = some (Entry.sync (SyncStrategy.bound a))) :
    ServiceContainer.getFuel (fuel + 1) c sid σ = (some a, σ) := by
  cases h with
  | inl h => rw [getFuel_entry_sync h]; rfl
  | inr h => rw [getFuel_entry_sync h]; rfl

/-- Witness for C4 at a concrete container: a singleton binding for capability
0 holding arc `(42, Val.base 9)` resolves to exactly that arc. -/
theorem fixed_instance_aliasing_witness :
    ServiceContainer.getFuel 1
        (⟨[(0, Entry.sync (SyncStrategy.singleton (42, Val.base 9)))]⟩ : ServiceContainer) 0 5
      = (some (42, Val.base 9), 5) :=
  fixed_instance_aliasing ⟨[(0, Entry.sync (SyncStrategy.singleton (42, Val.base 9)))]⟩
    0 (42, Val.base 9) 0 5 (Or.inl rfl)

/-- Claim C6: registering sync strategy `r1` then `r2` for the same capability
leaves the container exactly as if only `r2` had been registered (last write
wins), the registration is always recorded (`put` is total and never fails),
and resolution after the two registrations is determined solely by `r2`. -/
theorem put_last_write_wins (c : ServiceContainer) (sid : ServiceId)
    (r1 r2 : SyncStrategy) (fuel σ : Nat) :
    (c.put sid r1).put sid r2 = c.put sid r2
    ∧ lookupEntry (c.put sid r2).services sid = some (Entry.sync r2)
    ∧ ServiceContainer.getFuel fuel ((c.put sid r1).put sid r2) sid σ
        = ServiceContainer.getFuel fuel (c.put sid r2) sid σ := by
  have h1 : (c.put sid r1).put sid r2 = c.put sid r2 := by
    simp only [ServiceContainer.put, insertEntry_insertEntry]
  exact ⟨h1, lookupEntry_insertEntry_self c.services sid (Entry.sync r2), by rw [h1]⟩

/-- Claim C7: `replace` reads the current instance via `get` (possibly
absent), applies the mutation to its optional payload, and registers the
result as a fixed-instance (`Singleton`) strategy in a freshly allocated arc,
replacing whatever entry was registered before; afterwards `get` returns that
new instance. -/
theorem replace_semantics (fuel : Nat) (c : ServiceContainer) (sid : ServiceId)
    (f : Option Val → Val) (σ k τ : Nat) :
    (ServiceContainer.replace fuel c sid f σ).fst
        = c.put sid (SyncStrategy.singleton
            ((ServiceContainer.getFuel fuel c sid σ).snd,
             f ((ServiceContainer.getFuel fuel c sid σ).fst.map Prod.snd)))
    ∧ (ServiceContainer.replace fuel c sid f σ).snd
        = (ServiceContainer.getFuel fuel c sid σ).snd + 1
    ∧ lookupEntry (ServiceContainer.replace fuel c sid f σ).fst.services sid
        = some (Entry.sync (SyncStrategy.singleton
            ((ServiceContainer.getFuel fuel c sid σ).snd,
             f ((ServiceContainer.getFuel fuel c sid σ).fst.map Prod.snd))))
    ∧ ServiceContainer.getFuel (k + 1) (ServiceContainer.replace fuel c sid f σ).fst sid τ
        = (some ((ServiceContainer.getFuel fuel c sid σ).snd,
             f ((ServiceContainer.getFuel fuel c sid σ).fst.map Prod.snd)), τ) := by
  have h3 : lookupEntry (ServiceContainer.replace fuel c sid f σ).fst.services sid
      = some (Entry.sync (SyncStrategy.singleton
          ((ServiceContainer.getFuel fuel c sid σ).snd,
           f ((ServiceContainer.getFuel fuel c sid σ).fst.map Prod.snd)))) :=
    lookupEntry_insertEntry_self c.services sid _
  refine ⟨rfl, rfl, h3, ?_⟩
  rw [getFuel_entry_sync h3]; rfl

/-- Claim C8: duplicating the registry (`#[derive(Clone)]`, which copies the
key-to-entry map while sharing strategy objects) and mutating one duplicate in
any way leaves the other duplicate's resolutions — sync and async, for every
capability — unchanged; and the mutation does take effect on the mutated
duplicate. -/
theorem clone_branch_isolation (c : ServiceContainer)
    (mutate : ServiceContainer → ServiceContainer) (T sid : ServiceId)
    (r : SyncStrategy) (a : AsyncStrategy) (fuel σ : Nat) :
    ServiceContainer.getFuel fuel (c, mutate (ServiceContainer.clone c)).fst T σ
        = ServiceContainer.getFuel fuel c T σ
    ∧ ServiceContainer.getAsyncFuel fuel (c, mutate (ServiceContainer.clone c)).fst T σ
        = ServiceContainer.getAsyncFuel fuel c T σ
    ∧ ServiceContainer.clone c = c
    ∧ lookupEntry ((ServiceContainer.clone c).put sid r).services sid = some (Entry.sync r)
    ∧ lookupEntry ((ServiceContainer.clone c).putAsync sid a).services sid
        = some (Entry.async a) :=
  ⟨rfl, rfl, rfl, lookupEntry_insertEntry_self c.services sid _,
    lookupEntry_insertEntry_self c.services sid _⟩

/-- Claim C10: for a capability registered via `put_async`, the synchronous
`get` returns absent for every async strategy whatsoever and leaves the
allocation counter untouched (the stored `AsyncResolver` is never invoked:
the downcast to a sync `Resolver` fails), while `has` returns `true`. -/
theorem async_only_sync_get_absent (c : ServiceContainer) (sid : ServiceId)
    (a : AsyncStrategy) (fuel σ : Nat) :
    ServiceContainer.getFuel fuel (c.putAsync sid a) sid σ = (none, σ)
    ∧ (c.putAsync sid a).has sid = true := by
  have h : lookupEntry (c.putAsync sid a).services sid = some (Entry.async a) :=
    lookupEntry_insertEntry_self c.services sid _
  exact ⟨getFuel_entry_async h fuel σ, by simp [ServiceContainer.has, h]⟩

/-- Claim C1 counterexample: registering a sync singleton for capability 0 and
then an async strategy for the same capability does NOT leave the sync
strategy in place — before `put_async` the sync `get` returned the singleton's
arc, afterwards it returns absent (the single shared map slot was overwritten),
contradicting the claimed independence of the sync and async slots. -/
theorem putAsync_clobbers_sync_counterexample :
    ServiceContainer.getFuel 1
        (ServiceContainer.put ⟨[]⟩ 0 (SyncStrategy.singleton (0, Val.base 5))) 0 3
      = (some (0, Val.base 5), 3)
    ∧ ServiceContainer.getFuel 1
        (ServiceContainer.putAsync
          (ServiceContainer.put ⟨[]⟩ 0 (SyncStrategy.singleton (0, Val.base 5))) 0
          (AsyncStrategy.asyncBindBy (fun _ τ => (none, τ)))) 0 3
      = (none, 3) :=
  ⟨rfl, rfl⟩

/-- Claim C1 (amended): `put` and `put_async` share a single slot per
capability identity — at most ONE strategy (sync or async) is stored per
identity at any time, and the later registration wins regardless of kind:
`put_async` after `put` yields exactly the container of `put_async` alone (so
the sync strategy is gone and `get` subsequently returns absent), and `put`
after `put_async` yields exactly the container of `put` alone. -/
theorem single_slot_last_write_wins (c : ServiceContainer) (sid : ServiceId)
    (r : SyncStrategy) (a : AsyncStrategy) (fuel σ : Nat) :
    (c.put sid r).putAsync sid a = c.putAsync sid a
    ∧ (c.putAsync sid a).put sid r = c.put sid r
    ∧ lookupEntry ((c.put sid r).putAsync sid a).services sid = some (Entry.async a)
    ∧ ServiceContainer.getFuel fuel ((c.put sid r).putAsync sid a) sid σ = (none, σ) := by
  have h1 : (c.put sid r).putAsync sid a = c.putAsync sid a := by
    simp only [ServiceContainer.put, ServiceContainer.putAsync, insertEntry_insertEntry]
  have h3 : lookupEntry ((c.put sid r).putAsync sid a).services sid
      = some (Entry.async a) :=
    lookupEntry_insertEntry_self _ sid _
  refine ⟨h1, ?_, h3, getFuel_entry_async h3 fuel σ⟩
  simp only [ServiceContainer.put, ServiceContainer.putAsync, insertEntry_insertEntry]

/-- Claim C2 counterexample: register a sync singleton for capability 0, then
an async strategy that reports absent for the same capability.  Before
`put_async`, `get_async` resolved via the sync strategy; afterwards `get_async`
returns absent instead of falling back to the (overwritten) sync strategy,
contradicting the claim that a capability bound with both strategies resolves
via the sync one when the async one reports absent. -/
theorem getAsync_no_sync_fallback_counterexample :
    ServiceContainer.getAsyncFuel 1
        (ServiceContainer.put ⟨[]⟩ 0 (SyncStrategy.singleton (1, Val.base 7))) 0 4
      = (some (1, Val.base 7), 4)
    ∧ ServiceContainer.getAsyncFuel 1
        (ServiceContainer.putAsync
          (ServiceContainer.put ⟨[]⟩ 0 (SyncStrategy.singleton (1, Val.base 7))) 0
          (AsyncStrategy.asyncBindBy (fun _ τ => (none, τ)))) 0 4
      = (none, 4) :=
  ⟨rfl, rfl⟩

/-- Claim C2 (amended): `get_async` first attempts the stored strategy as an
async strategy and short-circuits on its success; if the slot holds a sync
strategy, holds nothing, or the async strategy reports absent, it returns the
result of the sync `get` — in particular a capability bound only with a sync
strategy resolves through `get_async` exactly as through `get`.  But since
sync and async registrations share one slot, when the stored async strategy
reports absent the fallback `get` finds no sync strategy and returns absent. -/
theorem getAsync_resolution_order (fuel σ : Nat) (c : ServiceContainer) (sid : ServiceId) :
    (∀ r : SyncStrategy, lookupEntry c.services sid = some (Entry.sync r) →
      ServiceContainer.getAsyncFuel fuel c sid σ = ServiceContainer.getFuel fuel c sid σ)
    ∧ (lookupEntry c.services sid = none →
      ServiceContainer.getAsyncFuel fuel c sid σ = ServiceContainer.getFuel fuel c sid σ)
    ∧ (∀ (a : AsyncStrategy) (s : Arc) (σ' : Nat),
        lookupEntry c.services sid = some (Entry.async a) →
        resolveAsync a (fun k τ => ServiceContainer.getFuel fuel c k τ) σ = (some s, σ') →
        ServiceContainer.getAsyncFuel fuel c sid σ = (some s, σ'))
    ∧ (∀ (a : AsyncStrategy) (σ' : Nat),
        lookupEntry c.services sid = some (Entry.async a) →
        resolveAsync a (fun k τ => ServiceContainer.getFuel fuel c k τ) σ = (none, σ') →
        ServiceContainer.getAsyncFuel fuel c sid σ = (none, σ')) := by
  refine ⟨fun r h => getAsyncFuel_entry_sync h fuel σ,
    fun h => getAsyncFuel_entry_none h fuel σ, ?_, ?_⟩
  · intro a s σ' h hres
    rw [getAsyncFuel_entry_async h, hres]
  · intro a σ' h hres
    rw [getAsyncFuel_entry_async h, hres]
    exact getFuel_entry_async h fuel σ'

/-- Witness for C2 at a concrete container: a capability bound only with a
sync singleton resolves through `get_async` (via the fallback to `get`) to the
singleton's arc. -/
theorem getAsync_resolution_order_witness :
    ServiceContainer.getAsyncFuel 1
        (⟨[(0, Entry.sync (SyncStrategy.singleton (8, Val.base 2)))]⟩ : ServiceContainer) 0 4
      = (some (8, Val.base 2), 4) :=
  ((getAsync_resolution_order 1 4
      ⟨[(0, Entry.sync (SyncStrategy.singleton (8, Val.base 2)))]⟩ 0).1
    (SyncStrategy.singleton (8, Val.base 2)) rfl).trans rfl

/-- Claim C3: starting from a container with no entry for the tag capability,
appending arc `x` via `put_tagged` and then arc `y`, and then calling
`get_tagged`, yields exactly the sequence `[x, y]` in registration order; and
`get_tagged` on the unregistered tag yields the empty sequence (the operation
returns a list, never an absent result). -/
theorem tagged_accumulation_order (c : ServiceContainer) (tagSid : ServiceId) (x y : Arc)
    (f1 f2 f3 f4 σ τ υ : Nat) (h : lookupEntry c.services tagSid = none) :
    ServiceContainer.getTagged f4 c tagSid υ = ([], υ)
    ∧ ServiceContainer.getTagged (f3 + 1)
        (ServiceContainer.putTagged (f2 + 1)
          (ServiceContainer.putTagged f1 c tagSid x σ).fst tagSid y
          (ServiceContainer.putTagged f1 c tagSid x σ).snd).fst tagSid τ
      = ([x, y], τ) := by
  constructor
  · simp [ServiceContainer.getTagged, getFuel_entry_none h]
  · have e1 : ServiceContainer.putTagged f1 c tagSid x σ
        = (c.put tagSid (SyncStrategy.singleton (σ, Val.tagged [x])), σ + 1) := by
      simp [ServiceContainer.putTagged, ServiceContainer.replace, getFuel_entry_none h,
        alloc, taggedArcs]
    rw [e1]
    have h1 : lookupEntry (c.put tagSid (SyncStrategy.singleton (σ, Val.tagged [x]))).services
        tagSid = some (Entry.sync (SyncStrategy.singleton (σ, Val.tagged [x]))) :=
      lookupEntry_insertEntry_self _ _ _
    have e2 : ServiceContainer.putTagged (f2 + 1)
          (c.put tagSid (SyncStrategy.singleton (σ, Val.tagged [x]))) tagSid y (σ + 1)
        = ((c.put tagSid (SyncStrategy.singleton (σ, Val.tagged [x]))).put tagSid
            (SyncStrategy.singleton (σ + 1, Val.tagged [x, y])), σ + 1 + 1) := by
      simp [ServiceContainer.putTagged, ServiceContainer.replace, getFuel_entry_sync h1,
        resolveSync, alloc, taggedArcs]
    rw [e2]
    have h2 : lookupEntry ((c.put tagSid (SyncStrategy.singleton (σ, Val.tagged [x]))).put
          tagSid (SyncStrategy.singleton (σ + 1, Val.tagged [x, y]))).services tagSid
        = some (Entry.sync (SyncStrategy.singleton (σ + 1, Val.tagged [x, y]))) :=
      lookupEntry_insertEntry_self _ _ _
    simp [ServiceContainer.getTagged, getFuel_entry_sync h2, resolveSync, taggedArcs]

/-- Witness for C3 at a concrete container: appending `(100, Val.base 1)` then
`(200, Val.base 2)` under tag capability 0 of the empty container and fetching
the tagged collection yields exactly those two arcs in order. -/
theorem tagged_accumulation_order_witness :
    ServiceContainer.getTagged 1
        (ServiceContainer.putTagged 1
          (ServiceContainer.putTagged 0 (⟨[]⟩ : ServiceContainer) 0 (100, Val.base 1) 0).fst 0
          (200, Val.base 2)
          (ServiceContainer.putTagged 0 (⟨[]⟩ : ServiceContainer) 0 (100, Val.base 1) 0).snd).fst
        0 9
      = ([(100, Val.base 1), (200, Val.base 2)], 9) :=
  (tagged_accumulation_order ⟨[]⟩ 0 (100, Val.base 1) (200, Val.base 2) 0 0 0 0 0 9 7 rfl).2

/-- Claim C5 counterexample: a lazy factory that returns a clone of one
already-allocated arc (identity 7) is a legal `BindBy` binding, and two
sequential `get` calls (the second starting from the first call's allocation
state) return the SAME arc with no fresh allocation — refuting the claim that
for every lazy-factory binding each successful resolution allocates a new,
independently allocated instance. -/
theorem lazy_factory_aliasing_counterexample :
    ServiceContainer.getFuel 1
        (⟨[(0, Entry.sync (SyncStrategy.bindBy
          (fun _ τ => (some (7, Val.base 1), τ))))]⟩ : ServiceContainer) 0 3
      = (some (7, Val.base 1), 3)
    ∧ ServiceContainer.getFuel 1
        (⟨[(0, Entry.sync (SyncStrategy.bindBy
          (fun _ τ => (some (7, Val.base 1), τ))))]⟩ : ServiceContainer) 0
        (ServiceContainer.getFuel 1
          (⟨[(0, Entry.sync (SyncStrategy.bindBy
            (fun _ τ => (some (7, Val.base 1), τ))))]⟩ : ServiceContainer) 0 3).snd
      = (some (7, Val.base 1), 3) :=
  ⟨rfl, rfl⟩

/-- Claim C5 (amended): lazy-factory and auto-construction strategies are
invoked fresh on every `get` call with no caching — a `BindBy` binding runs
the wrapped function on each call and returns exactly what it returns (which
may alias an existing instance), and a `Constructor` binding runs the
capability's `construct` operation on each call and wraps each success in a
freshly allocated arc, so two sequential successful resolutions of an
auto-constructed binding return instances with distinct allocation
identities. -/
theorem lazy_noncaching_and_constructor_freshness (c : ServiceContainer) (sid : ServiceId)
    (fuel σ : Nat) :
    (∀ f, lookupEntry c.services sid = some (Entry.sync (SyncStrategy.bindBy f)) →
      ServiceContainer.getFuel (fuel + 1) c sid σ
        = f (fun k τ => ServiceContainer.getFuel fuel c k τ) σ)
    ∧ (∀ g v1 v2 σ1 σ2,
        lookupEntry c.services sid = some (Entry.sync (SyncStrategy.constructor g)) →
        g (fun k τ => ServiceContainer.getFuel fuel c k τ) σ = (some v1, σ1) →
        g (fun k τ => ServiceContainer.getFuel fuel c k τ) (σ1 + 1) = (some v2, σ2) →
        σ1 + 1 ≤ σ2 →
        ServiceContainer.getFuel (fuel + 1) c sid σ = (some (σ1, v1), σ1 + 1)
        ∧ ServiceContainer.getFuel (fuel + 1) c sid (σ1 + 1) = (some (σ2, v2), σ2 + 1)
        ∧ σ1 ≠ σ2) := by
  constructor
  · intro f h
    rw [getFuel_entry_sync h]; rfl
  · intro g v1 v2 σ1 σ2 h h1 h2 hle
    refine ⟨?_, ?_, by omega⟩
    · rw [getFuel_entry_sync h]
      simp [resolveSync, h1, alloc]
    · rw [getFuel_entry_sync h]
      simp [resolveSync, h2, alloc]

/-- Witness for C5 at a concrete container: an auto-constructed binding whose
`construct` always succeeds with `Val.base 9` yields, on two sequential `get`
calls, arcs with the distinct allocation identities 4 and 5. -/
theorem lazy_noncaching_and_constructor_freshness_witness :
    ServiceContainer.getFuel 1
        (⟨[(0, Entry.sync (SyncStrategy.constructor
          (fun _ τ => (some (Val.base 9), τ))))]⟩ : ServiceContainer) 0 4
      = (some (4, Val.base 9), 5)
    ∧ ServiceContainer.getFuel 1
        (⟨[(0, Entry.sync (SyncStrategy.constructor
          (fun _ τ => (some (Val.base 9), τ))))]⟩ : ServiceContainer) 0 5
      = (some (5, Val.base 9), 6)
    ∧ (4 : Nat) ≠ 5 :=
  (lazy_noncaching_and_constructor_freshness
      ⟨[(0, Entry.sync (SyncStrategy.constructor (fun _ τ => (some (Val.base 9), τ))))]⟩
      0 0 4).2
    (fun _ τ => (some (Val.base 9), τ)) (Val.base 9) (Val.base 9) 4 5
    rfl rfl rfl (by decide)

/-- Claim C9: the adapter's per-request extraction returns the resolved
instance exactly when the registry is present in the request context and
`get_async` returns an instance; a missing registry yields the
registry-unavailable failure, an absent `get_async` yields the
service-not-found failure, and each failure kind converts into a terminal
protocol-level response (status 500). -/
theorem adapter_extraction_cases (fuel : Nat) (ctx : Except String ServiceContainer)
    (sid : ServiceId) (σ : Nat) :
    (∀ m, ctx = Except.error m →
      fromRequestParts fuel ctx sid σ
        = Except.error (AdapterError.serviceContainerNotAvailable m))
    ∧ (∀ c a σ', ctx = Except.ok c →
        ServiceContainer.getAsyncFuel fuel c sid σ = (some a, σ') →
        fromRequestParts fuel ctx sid σ = Except.ok a)
    ∧ (∀ c σ', ctx = Except.ok c →
        ServiceContainer.getAsyncFuel fuel c sid σ = (none, σ') →
        fromRequestParts fuel ctx sid σ = Except.error AdapterError.serviceNotFound)
    ∧ (∀ e, (intoResponse e).fst = 500) := by
  refine ⟨?_, ?_, ?_, ?_⟩
  · intro m hm; subst hm; rfl
  · intro c a σ' hc hres
    subst hc
    simp [fromRequestParts, hres]
  · intro c σ' hc hres
    subst hc
    simp [fromRequestParts, hres]
  · intro e; cases e <;> rfl

/-- Witness for C9 at a concrete request: with the registry present in the
context but the capability unbound, extraction fails with the
service-not-found error. -/
theorem adapter_extraction_cases_witness :
    fromRequestParts 1 (Except.ok (⟨[]⟩ : ServiceContainer)) 0 0
      = Except.error AdapterError.serviceNotFound :=
  (adapter_extraction_cases 1 (Except.ok ⟨[]⟩) 0 0).2.2.1 ⟨[]⟩ 0 rfl rfl

end Ruice
